import Mathlib

/-!
Verification of the `summitEpitech` code-fixer tool (`src/main.py`).

The program is a linear pipeline: probe an inference server, POST a file's
content to a chat-completions endpoint, parse the structured reply, print a
report, and on user confirmation rename the original file to a timestamped
backup and overwrite it with the fixed code.

Shallow embedding conventions:
* Library calls whose results come from the outside world (the HTTP GET and
  POST, `json.loads` on the inner message content, `time.strftime`, `input()`)
  are modelled as inputs of the embedded functions: an `Except` value for a
  call that can raise, a `String -> Except` oracle for `json.loads`.
* The filesystem is an association list from file names to contents;
  `os.rename` follows POSIX semantics (destination silently replaced).
* Python exceptions become the `PyError` type.  Only the message of an
  explicit `raise Exception(...)` is modelled exactly; the rendered messages
  of builtin exceptions (KeyError, TypeError, ...) are approximations, and no
  theorem depends on them except for the explicit `raise`.
-/

namespace CodeFixer

/-- Constant `BASE_URL` from `src/main.py`. -/
def BASE_URL : String := "http://localhost:1234/v1"

/-- Constant `MODEL_NAME` from `src/main.py`. -/
def MODEL_NAME : String := "llama-3.2-1b-instruct"

/-- Constant `API_TIMEOUT` from `src/main.py` (seconds). -/
def API_TIMEOUT : Nat := 120

/-- A parsed JSON value, as produced by Python's `json` module (numbers kept
abstract as integers; the claims only exercise strings, objects, arrays). -/
inductive JsonValue where
  | null : JsonValue
  | bool (b : Bool) : JsonValue
  | num (n : Int) : JsonValue
  | str (s : String) : JsonValue
  | arr (xs : List JsonValue) : JsonValue
  | obj (kvs : List (String × JsonValue)) : JsonValue

/-- Python exceptions that the program can raise or observe.  `exc` is the
explicit `raise Exception(msg)`; the others are builtin exception kinds. -/
inductive PyError where
  | exc (msg : String) : PyError
  | keyError (k : String) : PyError
  | indexError : PyError
  | typeError : PyError
  | jsonDecode : PyError
  | requestException : PyError
  | fileNotFound (name : String) : PyError
deriving DecidableEq

/-- Python `str(e)` on an exception.  Exact for `exc` (an `Exception` renders
as its message); approximate for builtin kinds, which no theorem relies on. -/
def errMsg : PyError → String
  | .exc m => m
  | .keyError k => "\x27" ++ k ++ "\x27"
  | .indexError => "list index out of range"
  | .typeError => "type error"
  | .jsonDecode => "Expecting value: line 1 column 1 (char 0)"
  | .requestException => "connection error"
  | .fileNotFound n => "[Errno 2] No such file or directory: \x27" ++ n ++ "\x27"

/-- Python subscript `v[key]` with a string key: a dict lookup (KeyError when
the key is absent), TypeError on every non-dict value. -/
def JsonValue.getItem : JsonValue → String → Except PyError JsonValue
  | .obj kvs, k =>
      match kvs.find? (fun p => p.1 = k) with
      | some p => .ok p.2
      | none => .error (.keyError k)
  | _, _ => .error .typeError

/-- Python subscript `v[i]` with an integer index: list indexing (IndexError
past the end), a one-character string for string indexing, KeyError for a
dict (no such integer key in this program), TypeError otherwise. -/
def JsonValue.index : JsonValue → Nat → Except PyError JsonValue
  | .arr xs, i =>
      match xs.get? i with
      | some v => .ok v
      | none => .error .indexError
  | .str s, i =>
      match s.data.get? i with
      | some c => .ok (.str (String.mk [c]))
      | none => .error .indexError
  | .obj _, _ => .error (.keyError "0")
  | _, _ => .error .typeError

mutual

/-- Python `str()` of a JSON value, used by `print(...)` in the report.  Exact
for strings (printed verbatim); containers use a JSON-like rendering in place
of Python repr, which no theorem relies on. -/
def pyStr : JsonValue → String
  | .null => "None"
  | .bool true => "True"
  | .bool false => "False"
  | .num n => toString n
  | .str s => s
  | .arr xs => "[" ++ pyStrJoin xs ++ "]"
  | .obj kvs => "\x7b" ++ pyStrJoinObj kvs ++ "\x7d"

/-- Comma-joined rendering of list elements for `pyStr`. -/
def pyStrJoin : List JsonValue → String
  | [] => ""
  | [x] => pyStr x
  | x :: y :: xs => pyStr x ++ ", " ++ pyStrJoin (y :: xs)

/-- Comma-joined rendering of object entries for `pyStr`. -/
def pyStrJoinObj : List (String × JsonValue) → String
  | [] => ""
  | [(k, v)] => k ++ ": " ++ pyStr v
  | (k, v) :: y :: xs => k ++ ": " ++ pyStr v ++ ", " ++ pyStrJoinObj (y :: xs)

end

/-- Whitespace characters removed by Python `str.strip()` (ASCII subset,
which covers every input the claims mention). -/
def pyIsSpace (c : Char) : Bool :=
  c = ' ' || c = '\t' || c = '\n' || c = '\x0d' || c = '\x0b' || c = '\x0c'

/-- Python `str.strip()`: drop whitespace from both ends. -/
def pyStrip (s : String) : String :=
  String.mk (((s.data.dropWhile pyIsSpace).reverse.dropWhile pyIsSpace).reverse)

/-- Python `str.lower()` (ASCII case mapping, which covers every input the
claims mention). -/
def pyLower (s : String) : String :=
  String.mk (s.data.map Char.toLower)

/-- The filesystem visible to the program: file name to content. -/
abbrev Fs := List (String × String)

/-- Content stored under a name, `none` when no such file exists. -/
def fsGet : Fs → String → Option String
  | [], _ => none
  | (k, v) :: rest, n => if k = n then some v else fsGet rest n

/-- Remove every entry stored under a name. -/
def fsDel : Fs → String → Fs
  | [], _ => []
  | (k, v) :: rest, n => if k = n then fsDel rest n else (k, v) :: fsDel rest n

/-- Store content under a name, replacing any previous entry. -/
def fsSet (fs : Fs) (n c : String) : Fs :=
  (n, c) :: fsDel fs n

/-- `os.rename src dst` on POSIX: FileNotFoundError when `src` is absent,
otherwise move the content, silently replacing any existing `dst`. -/
def fsRename (fs : Fs) (src dst : String) : Except PyError Fs :=
  match fsGet fs src with
  | none => .error (.fileNotFound src)
  | some c => .ok (fsSet (fsDel fs src) dst c)

/-- A filesystem mutation performed by the program, recorded in order:
`os.rename`, `open(..., "w")` (which truncates or creates the file), and
`f.write`. -/
inductive FsEvent where
  | rename (src dst : String) : FsEvent
  | truncate (name : String) : FsEvent
  | write (name content : String) : FsEvent
deriving DecidableEq

/-- The response of the `GET {BASE_URL}/models` health probe: its status
code, or `RequestException` when the request raised (network failure,
timeout). -/
abbrev GetOutcome := Except Unit Nat

/-- `check_server_available` from `src/main.py`: true exactly when the GET
returned and its status code is 200; a raised `RequestException` is caught
and yields false. -/
def check_server_available (getModels : GetOutcome) : Bool :=
  match getModels with
  | .ok status => status == 200
  | .error _ => false

/-- The server's reply to the `POST {BASE_URL}/chat/completions` request:
HTTP status code, raw body text, and the result of `response.json()`
(JSONDecodeError when the body is not JSON). -/
structure PostResponse where
  status_code : Nat
  text : String
  body : Except PyError JsonValue

/-- `analyze_and_fix_code` from `src/main.py`.  The constructed request body
(messages embedding the code, the `perform_code_analysis` tool schema, the
response-format JSON schema, temperature 0.3, stream false) goes to the
network and only the reply matters here, so the embedding takes the outcome
of `requests.post` (which can itself raise) and a `loads` oracle standing
for `json.loads`.  On a non-200 status it raises an `Exception` carrying the
status code and the raw body; otherwise it drills into
`data["choices"][0]["message"]["content"]` and parses that string. -/
def analyze_and_fix_code (loads : String → Except PyError JsonValue)
    (post : Except PyError PostResponse) : Except PyError JsonValue :=
  match post with
  | .error e => .error e
  | .ok response =>
    if response.status_code ≠ 200 then
      .error (.exc ("API request failed: " ++ toString response.status_code ++ "\n"
        ++ response.text))
    else
      match response.body with
      | .error e => .error e
      | .ok data =>
        match data.getItem "choices" with
        | .error e => .error e
        | .ok choices =>
          match choices.index 0 with
          | .error e => .error e
          | .ok choice0 =>
            match choice0.getItem "message" with
            | .error e => .error e
            | .ok message =>
              match message.getItem "content" with
              | .error e => .error e
              | .ok content =>
                match content with
                | .str s => loads s
                | _ => .error .typeError

/-- The prompt printed by `input(...)` in `validate_and_save`. -/
def promptLine : String := "\nApply these changes? [y/N]: "

/-- Outcome of `validate_and_save`: the filesystem afterwards, the lines
printed (prompt included), the filesystem events in order, and the exception
propagated to the caller, if any. -/
structure SaveResult where
  fs : Fs
  output : List String
  events : List FsEvent
  err : Option PyError

/-- `validate_and_save` from `src/main.py`.  The confirmation read from
stdin is stripped and lowercased; anything but "y" cancels.  Otherwise the
file is renamed to `<filename>.<timestamp>.bak` (the timestamp string is the
`time.strftime` result, an input here), then `open(filename, "w")` truncates
the file and `f.write(fix["fixed_code"])` stores the fixed code — the
subscript is evaluated after the truncating open, so its KeyError would
leave an empty file. -/
def validate_and_save (fs : Fs) (userInput timeStr filename : String)
    (fix : JsonValue) : SaveResult :=
  let confirmation := pyLower (pyStrip userInput)
  if confirmation ≠ "y" then
    { fs := fs, output := [promptLine, "Operation cancelled."], events := [], err := none }
  else
    let backup_filename := filename ++ "." ++ timeStr ++ ".bak"
    match fsRename fs filename backup_filename with
    | .error e =>
        { fs := fs, output := [promptLine], events := [], err := some e }
    | .ok fs1 =>
        let out := [promptLine, "Backup saved to " ++ backup_filename]
        let evs := [FsEvent.rename filename backup_filename, FsEvent.truncate filename]
        let fs2 := fsSet fs1 filename ""
        match fix.getItem "fixed_code" with
        | .error e => { fs := fs2, output := out, events := evs, err := some e }
        | .ok v =>
            match v with
            | .str s =>
                { fs := fsSet fs2 filename s
                  output := out ++ ["Update successful!"]
                  events := evs ++ [FsEvent.write filename s]
                  err := none }
            | _ => { fs := fs2, output := out, events := evs, err := some .typeError }

/-- The report printed inside `main`'s try block, lines 120-128: header,
language, error type, original code, fixed code, explanation.  Each
subscript `fix[...]` can raise; the pair is the lines printed before the
first failure and that failure, if any.  Note `fix["original_code"]` is read
unconditionally even though the response schema does not require it. -/
def report (fix : JsonValue) : List String × Option PyError :=
  let out := ["\n=== Code Fix Report ==="]
  match fix.getItem "language" with
  | .error e => (out, some e)
  | .ok lv =>
    let out := out ++ ["Language: " ++ pyStr lv]
    match fix.getItem "error_type" with
    | .error e => (out, some e)
    | .ok tv =>
      let out := out ++ ["Error Type: " ++ pyStr tv, "\nOriginal Code:"]
      match fix.getItem "original_code" with
      | .error e => (out, some e)
      | .ok ov =>
        let out := out ++ [pyStr ov, "\nFixed Code:"]
        match fix.getItem "fixed_code" with
        | .error e => (out, some e)
        | .ok fv =>
          let out := out ++ [pyStr fv, "\nExplanation:"]
          match fix.getItem "explanation" with
          | .error e => (out, some e)
          | .ok ev => (out ++ [pyStr ev], none)

/-- Everything the outside world feeds one invocation of the program: the
health-probe outcome, `sys.argv` (script name first), the filesystem, the
outcome of the analysis POST, the `json.loads` behaviour, the confirmation
line typed by the user, and the `time.strftime("%Y%m%d%H%M%S")` string. -/
structure Env where
  getModels : GetOutcome
  argv : List String
  fs : Fs
  post : Except PyError PostResponse
  loads : String → Except PyError JsonValue
  userInput : String
  timeStr : String

/-- Observable result of one invocation: exit status, final filesystem,
printed lines, and whether the analysis POST was issued. -/
structure RunResult where
  exitCode : Nat
  fs : Fs
  output : List String
  postIssued : Bool

/-- `main` from `src/main.py`: availability check (exit 1 when it fails,
before any POST), usage check, file read (existence modelled; exit 1 on
failure), then the try block running `analyze_and_fix_code`, the report and
`validate_and_save`, whose exceptions are all caught by `except` which
prints `Error fixing code: ...` and exits 1. -/
def main (env : Env) : RunResult :=
  if check_server_available env.getModels = false then
    { exitCode := 1, fs := env.fs
      output := ["LM Studio server not available. Please ensure it\x27s running at " ++ BASE_URL]
      postIssued := false }
  else if env.argv.length < 2 then
    { exitCode := 1, fs := env.fs, output := ["Usage: codefixer.py <filename>"]
      postIssued := false }
  else
    let filename := env.argv.getD 1 ""
    match fsGet env.fs filename with
    | none =>
        { exitCode := 1, fs := env.fs
          output := ["Error reading file: " ++ errMsg (.fileNotFound filename)]
          postIssued := false }
    | some _content =>
        match analyze_and_fix_code env.loads env.post with
        | .error e =>
            { exitCode := 1, fs := env.fs
              output := ["Error fixing code: " ++ errMsg e], postIssued := true }
        | .ok fix =>
            match report fix with
            | (lines, some e) =>
                { exitCode := 1, fs := env.fs
                  output := lines ++ ["Error fixing code: " ++ errMsg e]
                  postIssued := true }
            | (lines, none) =>
                let sv := validate_and_save env.fs env.userInput env.timeStr filename fix
                match sv.err with
                | some e =>
                    { exitCode := 1, fs := sv.fs
                      output := lines ++ sv.output ++ ["Error fixing code: " ++ errMsg e]
                      postIssued := true }
                | none =>
                    { exitCode := 0, fs := sv.fs, output := lines ++ sv.output
                      postIssued := true }

/-! ### Concrete fixtures used by counterexamples and witnesses -/

/-- A minimal well-formed analysis result with a string `fixed_code`. -/
def fixC1 : JsonValue := .obj [("fixed_code", .str "new")]

/-- A minimal well-formed analysis result with a string `fixed_code`. -/
def fixC2 : JsonValue := .obj [("fixed_code", .str "new")]

/-- An analysis result with all four required fields and no
`original_code`, exactly the worked example of the spec. -/
def fixC3 : JsonValue := .obj
  [("fixed_code", .str "def f(x): return x"),
   ("explanation", .str "removed trailing operator"),
   ("language", .str "python"),
   ("error_type", .str "SyntaxError")]

/-- A full invocation environment whose server reply carries `fixC3`. -/
def envC3 : Env :=
  { getModels := .ok 200
    argv := ["codefixer.py", "f.py"]
    fs := [("f.py", "def f(x): return x+")]
    post := .ok
      { status_code := 200, text := ""
        body := .ok (.obj [("choices",
          .arr [.obj [("message", .obj [("content", .str "inner")])]])]) }
    loads := fun _ => .ok fixC3
    userInput := "y"
    timeStr := "20250101120000" }

/-- An invocation whose 200 reply has a well-shaped outer body but an inner
content string that is not parseable JSON. -/
def envC4 : Env :=
  { getModels := .ok 200
    argv := ["codefixer.py", "f.py"]
    fs := [("f.py", "code")]
    post := .ok
      { status_code := 200, text := "ok"
        body := .ok (.obj [("choices",
          .arr [.obj [("message", .obj [("content", .str "not json")])]])]) }
    loads := fun _ => .error .jsonDecode
    userInput := "y"
    timeStr := "20250101120000" }

/-- Starting filesystem for the double-run scenario. -/
def fsC5 : Fs := [("f.py", "A")]

/-- First run's analysis result for the double-run scenario. -/
def fixC5a : JsonValue := .obj [("fixed_code", .str "B")]

/-- Second run's analysis result for the double-run scenario. -/
def fixC5b : JsonValue := .obj [("fixed_code", .str "C")]

/-- An invocation whose health probe raised a `RequestException`. -/
def envC6 : Env :=
  { getModels := .error ()
    argv := ["codefixer.py", "f.py"]
    fs := [("f.py", "code")]
    post := .error .requestException
    loads := fun _ => .error .jsonDecode
    userInput := "y"
    timeStr := "20250101120000" }

/-- An invocation whose chat-completions POST came back with status 500. -/
def envC8 : Env :=
  { getModels := .ok 200
    argv := ["codefixer.py", "f.py"]
    fs := [("f.py", "code")]
    post := .ok { status_code := 500, text := "Internal Server Error"
                  body := .error .jsonDecode }
    loads := fun _ => .error .jsonDecode
    userInput := "y"
    timeStr := "20250101120000" }

/-- An invocation whose 200 reply is a JSON object with no "choices". -/
def envC10 : Env :=
  { getModels := .ok 200
    argv := ["codefixer.py", "f.py"]
    fs := [("f.py", "code")]
    post := .ok { status_code := 200, text := "", body := .ok (.obj []) }
    loads := fun _ => .error .jsonDecode
    userInput := "y"
    timeStr := "20250101120000" }

/-! ### Basic laws of the filesystem model -/

theorem fsGet_fsDel (fs : Fs) (n m : String) :
    fsGet (fsDel fs n) m = if n = m then none else fsGet fs m := by
  induction fs with
  | nil => simp [fsDel, fsGet]
  | cons p rest ih =>
      obtain ⟨k, v⟩ := p
      by_cases hk : k = n
      · subst hk
        rw [show fsDel ((k, v) :: rest) k = fsDel rest k from by simp [fsDel]]
        rw [ih]
        by_cases hm : k = m
        · simp [hm]
        · simp [hm, fsGet]
      · rw [show fsDel ((k, v) :: rest) n = (k, v) :: fsDel rest n from by simp [fsDel, hk]]
        by_cases hm : k = m
        · subst hm
          have : n ≠ k := fun h => hk h.symm
          simp [fsGet, this]
        · simp [fsGet, hm, ih]

theorem fsGet_fsSet (fs : Fs) (n : String) (c : String) (m : String) :
    fsGet (fsSet fs n c) m = if n = m then some c else fsGet fs m := by
  by_cases h : n = m
  · simp [fsSet, fsGet, h]
  · simp [fsSet, fsGet, h, fsGet_fsDel]

/-- The backup name is strictly longer than the original name, hence
different from it. -/
theorem backupName_ne (filename t : String) :
    filename ++ "." ++ t ++ ".bak" ≠ filename := by
  intro h
  have hlen := congrArg String.length h
  rw [String.length_append, String.length_append, String.length_append] at hlen
  have h1 : (".").length = 1 := rfl
  have h2 : (".bak").length = 4 := rfl
  omega

/-- Characterization of `validate_and_save` on an affirmative confirmation
when the file exists and the result carries a string `fixed_code`. -/
theorem vas_affirm (fs : Fs) (input t filename orig s : String) (fix : JsonValue)
    (hy : pyLower (pyStrip input) = "y")
    (hfile : fsGet fs filename = some orig)
    (hfix : fix.getItem "fixed_code" = .ok (.str s)) :
    validate_and_save fs input t filename fix =
      { fs := fsSet (fsSet (fsSet (fsDel fs filename)
                  (filename ++ "." ++ t ++ ".bak") orig) filename "") filename s
        output := [promptLine, "Backup saved to " ++ (filename ++ "." ++ t ++ ".bak"),
                   "Update successful!"]
        events := [.rename filename (filename ++ "." ++ t ++ ".bak"),
                   .truncate filename, .write filename s]
        err := none } := by
  simp [validate_and_save, hy, fsRename, hfile, hfix]

/-- Characterization of `validate_and_save` on a declined confirmation. -/
theorem vas_decline (fs : Fs) (input t filename : String) (fix : JsonValue)
    (hn : pyLower (pyStrip input) ≠ "y") :
    validate_and_save fs input t filename fix =
      { fs := fs, output := [promptLine, "Operation cancelled."], events := [], err := none } := by
  simp [validate_and_save, hn]

/-- No line printed on the affirmative path can be the cancellation notice:
its backup message starts with a different character. -/
theorem backup_line_ne (b : String) :
    "Backup saved to " ++ b ≠ "Operation cancelled." := by
  intro h
  have hd := congrArg (fun s => s.data.head?) h
  simp only [String.data_append] at hd
  simp at hd

/-- When the parsed result has no usable `fixed_code`, the report aborts
with an exception (possibly an earlier one). -/
theorem report_err_of_missing_fixed (fix : JsonValue) (e : PyError)
    (h : fix.getItem "fixed_code" = .error e) :
    ∃ lines e2, report fix = (lines, some e2) := by
  unfold report
  cases hl : fix.getItem "language" with
  | error e1 => exact ⟨_, _, rfl⟩
  | ok lv =>
    cases ht : fix.getItem "error_type" with
    | error e1 => exact ⟨_, _, rfl⟩
    | ok tv =>
      cases ho : fix.getItem "original_code" with
      | error e1 => exact ⟨_, _, rfl⟩
      | ok ov =>
        rw [h]
        exact ⟨_, _, rfl⟩

/-- Reduction of `analyze_and_fix_code` through a well-shaped 200 reply:
the result is whatever `json.loads` makes of the inner content string. -/
theorem analyze_ok_chain (loads : String → Except PyError JsonValue)
    (resp : PostResponse) (d cs c0 m : JsonValue) (s : String)
    (hstatus : resp.status_code = 200)
    (hbody : resp.body = .ok d)
    (hchoices : d.getItem "choices" = .ok cs)
    (hc0 : cs.index 0 = .ok c0)
    (hmsg : c0.getItem "message" = .ok m)
    (hcontent : m.getItem "content" = .ok (JsonValue.str s)) :
    analyze_and_fix_code loads (.ok resp) = loads s := by
  simp [analyze_and_fix_code, hstatus, hbody, hchoices, hc0, hmsg, hcontent]

/-- Reduction of `analyze_and_fix_code` on a non-200 reply: the explicit
`raise Exception` carrying the status code and the raw body. -/
theorem analyze_non200 (loads : String → Except PyError JsonValue)
    (resp : PostResponse) (hstatus : resp.status_code ≠ 200) :
    analyze_and_fix_code loads (.ok resp) =
      .error (.exc ("API request failed: " ++ toString resp.status_code ++ "\n"
        ++ resp.text)) := by
  simp [analyze_and_fix_code, hstatus]

/-- When the analysis step raises, `main` catches, prints the diagnostic and
exits 1 without touching the filesystem; the POST was issued. -/
theorem main_analyze_err (env : Env) (c : String) (e : PyError)
    (hprobe : check_server_available env.getModels = true)
    (hargv : 2 ≤ env.argv.length)
    (hfile : fsGet env.fs (env.argv.getD 1 "") = some c)
    (ha : analyze_and_fix_code env.loads env.post = .error e) :
    main env = { exitCode := 1, fs := env.fs
                 output := ["Error fixing code: " ++ errMsg e], postIssued := true } := by
  have h2 : ¬ (env.argv.length < 2) := by omega
  have hfile2 : fsGet env.fs (env.argv[1]?.getD "") = some c := by
    rw [← List.getD_eq_getElem?_getD]; exact hfile
  simp [main, hprobe, h2, hfile2, ha]

/-- When the analysis step returns a result but the report raises, `main`
catches, exits 1 and does not touch the filesystem. -/
theorem main_report_err (env : Env) (c : String) (fix : JsonValue)
    (lines : List String) (e : PyError)
    (hprobe : check_server_available env.getModels = true)
    (hargv : 2 ≤ env.argv.length)
    (hfile : fsGet env.fs (env.argv.getD 1 "") = some c)
    (ha : analyze_and_fix_code env.loads env.post = .ok fix)
    (hr : report fix = (lines, some e)) :
    main env = { exitCode := 1, fs := env.fs
                 output := lines ++ ["Error fixing code: " ++ errMsg e]
                 postIssued := true } := by
  have h2 : ¬ (env.argv.length < 2) := by omega
  have hfile2 : fsGet env.fs (env.argv[1]?.getD "") = some c := by
    rw [← List.getD_eq_getElem?_getD]; exact hfile
  simp [main, hprobe, h2, hfile2, ha, hr]

/-- On an affirmative confirmation the printed lines are one of three
shapes, none of which is the cancellation notice. -/
theorem vas_affirm_output (fs : Fs) (input t filename : String) (fix : JsonValue)
    (hy : pyLower (pyStrip input) = "y") :
    (validate_and_save fs input t filename fix).output = [promptLine]
    ∨ (validate_and_save fs input t filename fix).output =
        [promptLine, "Backup saved to " ++ (filename ++ "." ++ t ++ ".bak")]
    ∨ (validate_and_save fs input t filename fix).output =
        [promptLine, "Backup saved to " ++ (filename ++ "." ++ t ++ ".bak"),
         "Update successful!"] := by
  simp only [validate_and_save, hy, ne_eq, not_true_eq_false, if_false, ite_false]
  cases hr : fsRename fs filename (filename ++ "." ++ t ++ ".bak") with
  | error e => simp
  | ok fs1 =>
      cases hg : fix.getItem "fixed_code" with
      | error e => simp
      | ok v => cases v <;> simp

/-- C7: `check_server_available` is a total boolean function: it returns
true exactly when the GET to the models endpoint yields HTTP 200, and a
raised network error (timeout, connection failure) is caught and yields
false rather than propagating. -/
theorem C7_check_server_available_total (st : Nat) (e : Unit) :
    (check_server_available (.ok st) = true ↔ st = 200)
    ∧ check_server_available (.error e) = false := by
  constructor
  · simp [check_server_available]
  · rfl

/-- C6: whenever the health probe comes back false, `main` exits with
status 1, never issues the analysis POST, and leaves the filesystem
untouched. -/
theorem C6_probe_fail_never_posts (env : Env)
    (h : check_server_available env.getModels = false) :
    (main env).exitCode = 1 ∧ (main env).postIssued = false
    ∧ (main env).fs = env.fs := by
  simp [main, h]

/-- Witness for C6: a probe that raised a network error makes the program
exit 1 without the POST. -/
theorem C6_witness :
    (main envC6).exitCode = 1 ∧ (main envC6).postIssued = false
    ∧ (main envC6).fs = envC6.fs :=
  C6_probe_fail_never_posts envC6 rfl

/-- C2 counterexample: the input " Y " is not a case-insensitive "y" (it
equals neither "y" nor "Y"), yet the confirm-and-persist step does not
cancel: it creates a backup and overwrites the target file. -/
theorem C2_counterexample :
    (" Y " ≠ "y" ∧ " Y " ≠ "Y")
    ∧ (validate_and_save [("f.py", "old")] " Y " "20250101120000" "f.py" fixC2).output
        ≠ [promptLine, "Operation cancelled."]
    ∧ fsGet (validate_and_save [("f.py", "old")] " Y " "20250101120000" "f.py" fixC2).fs
        "f.py" = some "new"
    ∧ fsGet (validate_and_save [("f.py", "old")] " Y " "20250101120000" "f.py" fixC2).fs
        "f.py.20250101120000.bak" = some "old" := by
  refine ⟨⟨by decide, by decide⟩, by decide, rfl, rfl⟩

/-- C2 (amended): for every confirmation input whose stripped, lowercased
form differs from "y", the confirm-and-persist step prints the cancellation
notice and returns with the filesystem untouched: no write, no backup, no
exception. -/
theorem C2_decline_untouched (fs : Fs) (input t filename : String) (fix : JsonValue)
    (h : pyLower (pyStrip input) ≠ "y") :
    validate_and_save fs input t filename fix =
      { fs := fs, output := [promptLine, "Operation cancelled."]
        events := [], err := none } :=
  vas_decline fs input t filename fix h

/-- Witness for C2: the input "n" declines and leaves everything alone. -/
theorem C2_witness :
    pyLower (pyStrip "n") ≠ "y"
    ∧ validate_and_save [("f.py", "old")] "n" "20250101120000" "f.py" fixC2 =
        { fs := [("f.py", "old")], output := [promptLine, "Operation cancelled."]
          events := [], err := none } :=
  ⟨by decide, C2_decline_untouched [("f.py", "old")] "n" "20250101120000" "f.py" fixC2
    (by decide)⟩

/-- C9: the confirmation is stripped and lowercased before the comparison:
the run cancels exactly when the normalized input differs from "y"; in
particular " Y " counts as affirmative while "yes" counts as decline. -/
theorem C9_confirmation_strip_lower (fs : Fs) (input t filename : String)
    (fix : JsonValue) :
    ((validate_and_save fs input t filename fix).output =
        [promptLine, "Operation cancelled."] ↔ pyLower (pyStrip input) ≠ "y")
    ∧ pyLower (pyStrip " Y ") = "y"
    ∧ pyLower (pyStrip "yes") ≠ "y" := by
  refine ⟨⟨?_, ?_⟩, by decide, by decide⟩
  · intro heq
    by_contra hy
    rcases vas_affirm_output fs input t filename fix hy with h | h | h
    · rw [heq] at h; simp at h
    · rw [heq] at h
      injection h with h1 h2
      injection h2 with h3 h4
      exact backup_line_ne _ h3.symm
    · rw [heq] at h; simp at h
  · intro hn
    rw [vas_decline fs input t filename fix hn]

/-- C1: on an affirmative confirmation, with the target file present and a
string `fixed_code` in the result, exactly one backup appears (every other
name is untouched) holding the pre-write original content, the rename is
the first filesystem event — before the truncating open and the write — and
the original name ends up holding `fixed_code` exactly. -/
theorem C1_affirmative_backup_then_write (fs : Fs)
    (input t filename orig s : String) (fix : JsonValue)
    (hy : pyLower (pyStrip input) = "y")
    (hfile : fsGet fs filename = some orig)
    (hfix : fix.getItem "fixed_code" = .ok (.str s)) :
    (validate_and_save fs input t filename fix).err = none
    ∧ fsGet (validate_and_save fs input t filename fix).fs
        (filename ++ "." ++ t ++ ".bak") = some orig
    ∧ fsGet (validate_and_save fs input t filename fix).fs filename = some s
    ∧ (∀ g, g ≠ filename → g ≠ filename ++ "." ++ t ++ ".bak" →
        fsGet (validate_and_save fs input t filename fix).fs g = fsGet fs g)
    ∧ (validate_and_save fs input t filename fix).events =
        [FsEvent.rename filename (filename ++ "." ++ t ++ ".bak"),
         FsEvent.truncate filename, FsEvent.write filename s] := by
  have hbf : filename ++ "." ++ t ++ ".bak" ≠ filename := backupName_ne filename t
  have hfb : filename ≠ filename ++ "." ++ t ++ ".bak" := fun h => hbf h.symm
  rw [vas_affirm fs input t filename orig s fix hy hfile hfix]
  refine ⟨rfl, ?_, ?_, ?_, rfl⟩
  · simp [fsGet_fsSet, hfb]
  · simp [fsGet_fsSet]
  · intro g hg1 hg2
    have h1 : filename ≠ g := fun h => hg1 h.symm
    have h2 : filename ++ "." ++ t ++ ".bak" ≠ g := fun h => hg2 h.symm
    simp [fsGet_fsSet, fsGet_fsDel, h1, h2]

/-- Witness for C1: a concrete affirmative run that backs up and rewrites
`f.py`. -/
theorem C1_witness :
    pyLower (pyStrip "y") = "y"
    ∧ fsGet [("f.py", "old")] "f.py" = some "old"
    ∧ fixC1.getItem "fixed_code" = .ok (.str "new")
    ∧ ((validate_and_save [("f.py", "old")] "y" "20250101120000" "f.py" fixC1).err = none
      ∧ fsGet (validate_and_save [("f.py", "old")] "y" "20250101120000" "f.py" fixC1).fs
          ("f.py" ++ "." ++ "20250101120000" ++ ".bak") = some "old"
      ∧ fsGet (validate_and_save [("f.py", "old")] "y" "20250101120000" "f.py" fixC1).fs
          "f.py" = some "new"
      ∧ (∀ g, g ≠ "f.py" → g ≠ "f.py" ++ "." ++ "20250101120000" ++ ".bak" →
          fsGet (validate_and_save [("f.py", "old")] "y" "20250101120000" "f.py" fixC1).fs g
            = fsGet [("f.py", "old")] g)
      ∧ (validate_and_save [("f.py", "old")] "y" "20250101120000" "f.py" fixC1).events =
          [FsEvent.rename "f.py" ("f.py" ++ "." ++ "20250101120000" ++ ".bak"),
           FsEvent.truncate "f.py", FsEvent.write "f.py" "new"]) :=
  ⟨by decide, rfl, rfl,
    C1_affirmative_backup_then_write [("f.py", "old")] "y" "20250101120000" "f.py"
      "old" "new" fixC1 (by decide) rfl rfl⟩

/-- C5 counterexample: two affirmative runs on `f.py` with the same
timestamp second.  The original content "A" went into the first run's
backup, and after the second run no file on the filesystem holds "A" any
more: the second rename silently replaced the first backup. -/
theorem C5_counterexample :
    ¬ ∃ name, fsGet (validate_and_save
        (validate_and_save fsC5 "y" "20250101120000" "f.py" fixC5a).fs
        "y" "20250101120000" "f.py" fixC5b).fs name = some "A" := by
  rintro ⟨n, hn⟩
  have he : (validate_and_save
      (validate_and_save fsC5 "y" "20250101120000" "f.py" fixC5a).fs
      "y" "20250101120000" "f.py" fixC5b).fs =
      [("f.py", "C"), ("f.py.20250101120000.bak", "B")] := by rfl
  rw [he] at hn
  simp only [fsGet] at hn
  by_cases h1 : ("f.py" : String) = n
  · rw [if_pos h1] at hn
    exact absurd (Option.some.inj hn) (by decide)
  · rw [if_neg h1] at hn
    by_cases h2 : ("f.py.20250101120000.bak" : String) = n
    · rw [if_pos h2] at hn
      exact absurd (Option.some.inj hn) (by decide)
    · rw [if_neg h2] at hn
      exact Option.noConfusion hn

/-- C5 (amended): two affirmative runs against the same filename within the
same second compute the identical backup name; the second run's rename
silently replaces the first backup, so afterwards the backup name holds the
first run's fixed code, the original name holds the second run's fixed
code, the pre-run original content survives nowhere new, and every other
name is untouched.  The no-clobber guarantee the claim asks about is a
known gap, not a property of the code. -/
theorem C5_same_second_backup_clobbered (fs : Fs)
    (i1 i2 t filename orig s1 s2 : String) (fix1 fix2 : JsonValue)
    (hy1 : pyLower (pyStrip i1) = "y")
    (hy2 : pyLower (pyStrip i2) = "y")
    (hfile : fsGet fs filename = some orig)
    (h1 : fix1.getItem "fixed_code" = .ok (.str s1))
    (h2 : fix2.getItem "fixed_code" = .ok (.str s2)) :
    fsGet (validate_and_save fs i1 t filename fix1).fs
        (filename ++ "." ++ t ++ ".bak") = some orig
    ∧ fsGet (validate_and_save (validate_and_save fs i1 t filename fix1).fs
        i2 t filename fix2).fs (filename ++ "." ++ t ++ ".bak") = some s1
    ∧ fsGet (validate_and_save (validate_and_save fs i1 t filename fix1).fs
        i2 t filename fix2).fs filename = some s2
    ∧ (∀ g, g ≠ filename → g ≠ filename ++ "." ++ t ++ ".bak" →
        fsGet (validate_and_save (validate_and_save fs i1 t filename fix1).fs
          i2 t filename fix2).fs g = fsGet fs g) := by
  have hbf : filename ++ "." ++ t ++ ".bak" ≠ filename := backupName_ne filename t
  have hfb : filename ≠ filename ++ "." ++ t ++ ".bak" := fun h => hbf h.symm
  rw [vas_affirm fs i1 t filename orig s1 fix1 hy1 hfile h1]
  have hr1 : fsGet (fsSet (fsSet (fsSet (fsDel fs filename)
      (filename ++ "." ++ t ++ ".bak") orig) filename "") filename s1) filename
      = some s1 := by simp [fsGet_fsSet]
  rw [vas_affirm _ i2 t filename s1 s2 fix2 hy2 hr1 h2]
  refine ⟨?_, ?_, ?_, ?_⟩
  · simp [fsGet_fsSet, hfb]
  · simp [fsGet_fsSet, hfb]
  · simp [fsGet_fsSet]
  · intro g hg1 hg2
    have hfg : filename ≠ g := fun h => hg1 h.symm
    have hbg : filename ++ "." ++ t ++ ".bak" ≠ g := fun h => hg2 h.symm
    simp [fsGet_fsSet, fsGet_fsDel, hfg, hbg]

/-- Witness for C5 (amended): the concrete double run, where the backup
ends up holding "B" (run 1's fixed code), not the original "A". -/
theorem C5_witness :
    pyLower (pyStrip "y") = "y"
    ∧ fsGet fsC5 "f.py" = some "A"
    ∧ fixC5a.getItem "fixed_code" = .ok (.str "B")
    ∧ fixC5b.getItem "fixed_code" = .ok (.str "C")
    ∧ (fsGet (validate_and_save fsC5 "y" "20250101120000" "f.py" fixC5a).fs
          ("f.py" ++ "." ++ "20250101120000" ++ ".bak") = some "A"
      ∧ fsGet (validate_and_save (validate_and_save fsC5 "y" "20250101120000" "f.py" fixC5a).fs
          "y" "20250101120000" "f.py" fixC5b).fs
          ("f.py" ++ "." ++ "20250101120000" ++ ".bak") = some "B"
      ∧ fsGet (validate_and_save (validate_and_save fsC5 "y" "20250101120000" "f.py" fixC5a).fs
          "y" "20250101120000" "f.py" fixC5b).fs "f.py" = some "C"
      ∧ (∀ g, g ≠ "f.py" → g ≠ "f.py" ++ "." ++ "20250101120000" ++ ".bak" →
          fsGet (validate_and_save (validate_and_save fsC5 "y" "20250101120000" "f.py" fixC5a).fs
            "y" "20250101120000" "f.py" fixC5b).fs g = fsGet fsC5 g)) :=
  ⟨by decide, rfl, rfl, rfl,
    C5_same_second_backup_clobbered fsC5 "y" "y" "20250101120000" "f.py" "A" "B" "C"
      fixC5a fixC5b (by decide) (by decide) rfl rfl rfl⟩

/-- C3 (code bug): the response schema declares `original_code` optional,
yet the report reads `fix["original_code"]` unconditionally.  On a result
with all four required fields and no `original_code` the report raises
KeyError after four lines — `fixed_code` and `explanation` are never
printed — and `main` exits 1 instead of never failing. -/
theorem C3_report_crashes_without_original_code :
    (report fixC3).2 = some (.keyError "original_code")
    ∧ (report fixC3).1 = ["\n=== Code Fix Report ===", "Language: python",
        "Error Type: SyntaxError", "\nOriginal Code:"]
    ∧ (main envC3).exitCode = 1
    ∧ (main envC3).fs = envC3.fs
    ∧ (main envC3).output = ["\n=== Code Fix Report ===", "Language: python",
        "Error Type: SyntaxError", "\nOriginal Code:",
        "Error fixing code: " ++ errMsg (.keyError "original_code")] :=
  ⟨rfl, rfl, rfl, rfl, rfl⟩

/-- C4: when the POST comes back 200 with a well-shaped outer body but the
inner message content is malformed — not parseable as JSON, or valid JSON
without a usable `fixed_code` — the run exits with status 1 and the
filesystem is untouched (the failure surfaces in `json.loads` or in the
report's `fix["fixed_code"]`, always before `validate_and_save`). -/
theorem C4_malformed_inner_exits_1 (env : Env) (resp : PostResponse)
    (d cs c0 m : JsonValue) (s c : String)
    (hprobe : check_server_available env.getModels = true)
    (hargv : 2 ≤ env.argv.length)
    (hfile : fsGet env.fs (env.argv.getD 1 "") = some c)
    (hpost : env.post = .ok resp)
    (hstatus : resp.status_code = 200)
    (hbody : resp.body = .ok d)
    (hchoices : d.getItem "choices" = .ok cs)
    (hc0 : cs.index 0 = .ok c0)
    (hmsg : c0.getItem "message" = .ok m)
    (hcontent : m.getItem "content" = .ok (.str s))
    (hmal : (∃ e, env.loads s = .error e)
      ∨ (∃ v e, env.loads s = .ok v ∧ v.getItem "fixed_code" = .error e)) :
    (main env).exitCode = 1 ∧ (main env).fs = env.fs := by
  have hchain : analyze_and_fix_code env.loads env.post = env.loads s := by
    rw [hpost]
    exact analyze_ok_chain env.loads resp d cs c0 m s hstatus hbody hchoices hc0
      hmsg hcontent
  rcases hmal with ⟨e, he⟩ | ⟨v, e, hv, hve⟩
  · rw [main_analyze_err env c e hprobe hargv hfile (hchain.trans he)]
    exact ⟨rfl, rfl⟩
  · obtain ⟨lines, e2, hr⟩ := report_err_of_missing_fixed v e hve
    rw [main_report_err env c v lines e2 hprobe hargv hfile (hchain.trans hv) hr]
    exact ⟨rfl, rfl⟩

/-- Witness for C4: a 200 reply whose inner content fails to parse makes
the run exit 1 with the file intact. -/
theorem C4_witness :
    (main envC4).exitCode = 1 ∧ (main envC4).fs = envC4.fs :=
  C4_malformed_inner_exits_1 envC4
    { status_code := 200, text := "ok"
      body := .ok (.obj [("choices",
        .arr [.obj [("message", .obj [("content", .str "not json")])]])]) }
    (.obj [("choices", .arr [.obj [("message", .obj [("content", .str "not json")])]])])
    (.arr [.obj [("message", .obj [("content", .str "not json")])]])
    (.obj [("message", .obj [("content", .str "not json")])])
    (.obj [("content", .str "not json")])
    "not json" "code"
    rfl (by decide) rfl rfl rfl rfl rfl rfl rfl rfl
    (Or.inl ⟨.jsonDecode, rfl⟩)

/-- C8: a non-200 chat-completions reply makes the analysis step raise an
`Exception` whose message contains the numeric status code and the raw
body, after which `main` exits 1 without touching the filesystem. -/
theorem C8_api_error_carries_status_and_body (env : Env) (resp : PostResponse)
    (c : String)
    (hprobe : check_server_available env.getModels = true)
    (hargv : 2 ≤ env.argv.length)
    (hfile : fsGet env.fs (env.argv.getD 1 "") = some c)
    (hpost : env.post = .ok resp)
    (hstatus : resp.status_code ≠ 200) :
    analyze_and_fix_code env.loads env.post =
      .error (.exc ("API request failed: " ++ toString resp.status_code ++ "\n"
        ++ resp.text))
    ∧ List.IsInfix (toString resp.status_code).data
        ("API request failed: " ++ toString resp.status_code ++ "\n" ++ resp.text).data
    ∧ List.IsInfix resp.text.data
        ("API request failed: " ++ toString resp.status_code ++ "\n" ++ resp.text).data
    ∧ (main env).exitCode = 1
    ∧ (main env).fs = env.fs := by
  have ha : analyze_and_fix_code env.loads env.post =
      .error (.exc ("API request failed: " ++ toString resp.status_code ++ "\n"
        ++ resp.text)) := by
    rw [hpost]; exact analyze_non200 env.loads resp hstatus
  refine ⟨ha, ?_, ?_, ?_⟩
  · exact ⟨("API request failed: ").data, ("\n" ++ resp.text).data,
      by simp [String.data_append, List.append_assoc]⟩
  · exact ⟨("API request failed: " ++ toString resp.status_code ++ "\n").data, [],
      by simp [String.data_append, List.append_assoc]⟩
  · rw [main_analyze_err env c _ hprobe hargv hfile ha]
    exact ⟨rfl, rfl⟩

/-- Witness for C8: a 500 reply with body "Internal Server Error". -/
theorem C8_witness :
    analyze_and_fix_code envC8.loads envC8.post =
      .error (.exc ("API request failed: " ++ toString (500 : Nat) ++ "\n"
        ++ "Internal Server Error"))
    ∧ List.IsInfix (toString (500 : Nat)).data
        ("API request failed: " ++ toString (500 : Nat) ++ "\n"
          ++ "Internal Server Error").data
    ∧ List.IsInfix ("Internal Server Error").data
        ("API request failed: " ++ toString (500 : Nat) ++ "\n"
          ++ "Internal Server Error").data
    ∧ (main envC8).exitCode = 1
    ∧ (main envC8).fs = envC8.fs :=
  C8_api_error_carries_status_and_body envC8
    { status_code := 500, text := "Internal Server Error", body := .error .jsonDecode }
    "code" rfl (by decide) rfl rfl (by decide)

/-- C10: a 200 reply whose JSON body deviates structurally — no "choices"
entry, an empty choices list, or a first choice without "message" or
"content" — makes the extraction raise, so `main` exits 1 with the
filesystem untouched. -/
theorem C10_structural_deviation_exits_1 (env : Env) (resp : PostResponse)
    (d : JsonValue) (c : String)
    (hprobe : check_server_available env.getModels = true)
    (hargv : 2 ≤ env.argv.length)
    (hfile : fsGet env.fs (env.argv.getD 1 "") = some c)
    (hpost : env.post = .ok resp)
    (hstatus : resp.status_code = 200)
    (hbody : resp.body = .ok d)
    (hshape : (∃ e, d.getItem "choices" = .error e)
      ∨ (d.getItem "choices" = .ok (.arr []))
      ∨ (∃ cs c0, d.getItem "choices" = .ok cs ∧ cs.index 0 = .ok c0
          ∧ ∃ e, c0.getItem "message" = .error e)
      ∨ (∃ cs c0 m, d.getItem "choices" = .ok cs ∧ cs.index 0 = .ok c0
          ∧ c0.getItem "message" = .ok m ∧ ∃ e, m.getItem "content" = .error e)) :
    (main env).exitCode = 1 ∧ (main env).fs = env.fs := by
  have herr : ∃ e, analyze_and_fix_code env.loads env.post = .error e := by
    rw [hpost]
    rcases hshape with ⟨e, hch⟩ | hch | ⟨cs, c0, hch, hc0, e, hm⟩ |
      ⟨cs, c0, m, hch, hc0, hm, e, hc⟩
    · exact ⟨e, by simp [analyze_and_fix_code, hstatus, hbody, hch]⟩
    · exact ⟨.indexError,
        by simp [analyze_and_fix_code, hstatus, hbody, hch, JsonValue.index]⟩
    · exact ⟨e, by simp [analyze_and_fix_code, hstatus, hbody, hch, hc0, hm]⟩
    · exact ⟨e, by simp [analyze_and_fix_code, hstatus, hbody, hch, hc0, hm, hc]⟩
  obtain ⟨e, ha⟩ := herr
  rw [main_analyze_err env c e hprobe hargv hfile ha]
  exact ⟨rfl, rfl⟩

/-- Witness for C10: a 200 reply whose body is an empty JSON object. -/
theorem C10_witness :
    (main envC10).exitCode = 1 ∧ (main envC10).fs = envC10.fs :=
  C10_structural_deviation_exits_1 envC10
    { status_code := 200, text := "", body := .ok (.obj []) }
    (.obj []) "code" rfl (by decide) rfl rfl rfl rfl
    (Or.inl ⟨.keyError "choices", rfl⟩)

end CodeFixer
